import Mathlib

/-!
Shallow embedding of `src/main.rs` of the `delete-strapi-orders` tool.

The program fetches pages of order records from a Strapi listing API, and
for each record deletes a linked Shopify resource (when a `cartReference`
is present) and then the Strapi record itself.

Effects are made explicit:
* `Env` packages the process environment (`std::env::var`), the outcome of
  each listing GET (`reqwest` transport plus JSON decoding), and the
  transport outcome of each DELETE request, keyed by its URL.
* Every embedded function additionally returns the ordered list of network
  events (`Ev`) it emits: listing GETs and DELETE requests.
* `Res` distinguishes a normal value, a `reqwest::Error` returned as
  `Err` (`Res.err`), and a Rust panic from `unwrap`/`expect` (`Res.panic`).
  Inside a spawned tokio task a panic is caught at `join_all` and surfaces
  as a `JoinError`, which the aggregation loop merely prints.

Machine integers (`i32`) are modelled as `Int`; none of the verified
properties involve quantities near the `i32` range, and per-page record
counts are bounded by the page size in practice.
-/

namespace StrapiOrders

/-- `struct Pagination` of the listing response (`meta.pagination`). -/
structure Pagination where
  page : Int
  page_size : Int
  page_count : Int
  total : Int
deriving DecidableEq

/-- `struct Meta` of the listing response. -/
structure Meta where
  pagination : Pagination
deriving DecidableEq

/-- `struct DataAtribute`: the optional `cartReference` of a record. -/
structure DataAtribute where
  cart_reference : Option String
deriving DecidableEq

/-- `struct DataElement`: one order record of a page. -/
structure DataElement where
  id : Int
  attributes : DataAtribute
deriving DecidableEq

/-- `struct Root`: one deserialized page envelope. -/
structure Root where
  data : List DataElement
  meta : Meta
deriving DecidableEq

/-- `struct ShopifyConfig`. -/
structure ShopifyConfig where
  access_token : String
  shop_url : String
deriving DecidableEq

/-- `struct StrapiConfig`. -/
structure StrapiConfig where
  base_url : String
  auth_token : String
deriving DecidableEq

/-- A network event emitted by the program, in program order. -/
inductive Ev where
  /-- An authenticated listing GET was sent, for this page, at this URL. -/
  | fetchReq : Int → String → Ev
  /-- A DELETE was sent to the Shopify (secondary) endpoint at this URL. -/
  | shopifyReq : String → Ev
  /-- A DELETE was sent to the Strapi (primary) endpoint at this URL. -/
  | strapiReq : String → Ev
deriving DecidableEq

/-- The outcome of a piece of Rust code: a value, a `reqwest::Error`
returned as `Err`, or a panic (`unwrap`/`expect` on a missing value). -/
inductive Res (α : Type) where
  | ok : α → Res α
  | err : String → Res α
  | panic : String → Res α
deriving DecidableEq

/-- The ambient world: process environment variables and the outcome of
each remote call. `fetch page` is the combined transport + JSON-decoding
outcome of the listing GET for `page`; the two transport functions give
the transport-level outcome of a DELETE at a given URL (`Except.ok` means
the call completed, whatever its HTTP status code). -/
structure Env where
  vars : String → Option String
  fetch : Int → Except String Root
  shopifyTransport : String → Except String Unit
  strapiTransport : String → Except String Unit

/-- `load_configs`: reads the four environment variables, `expect`ing each;
a missing variable is a panic, rendered as `Except.error` with the
`expect` message. Performs no network call. -/
def load_configs (env : Env) : Except String (ShopifyConfig × StrapiConfig) :=
  match env.vars "STRAPI_BASE_URL" with
  | none => Except.error "STRAPI_BASE_URL not set"
  | some strapi_url =>
    match env.vars "STRAPI_TOKEN" with
    | none => Except.error "STRAPI_TOKEN not set"
    | some strapi_token =>
      match env.vars "SHOP_ACCESS_TOKEN" with
      | none => Except.error "SHOP_ACCESS_TOKEN not set"
      | some shopify_token =>
        match env.vars "SHOP_BASE_URL" with
        | none => Except.error "SHOP_BASE_URL not set"
        | some shopify_url =>
          Except.ok (⟨shopify_token, shopify_url⟩, ⟨strapi_url, strapi_token⟩)

/-- `create_order_filter`: the query string of a listing GET. -/
def create_order_filter (page : Int) (page_size : Int) : String :=
  "fields[0]=id&fields[1]=cartReference&pagination[pageSize]=" ++ toString page_size
    ++ "&pagination[page]=" ++ toString page
    ++ "&publicationState=preview&locale[0]=en"

/-- The full URL of the listing GET for `page`, as built inside
`fetch_root_for_page` (page size fixed at 10). -/
def pageUrl (base_url : String) (page : Int) : String :=
  (base_url ++ "/orders") ++ "?" ++ create_order_filter page 10

/-- `fetch_root_for_page`: `unwrap`s the two Strapi variables (a missing
one panics before anything is sent), builds the URL with page size 10,
sends one GET, and decodes the body. Returns the emitted events together
with the outcome. -/
def fetch_root_for_page (env : Env) (page : Int) : List Ev × Res Root :=
  match env.vars "STRAPI_BASE_URL" with
  | none => ([], Res.panic "STRAPI_BASE_URL")
  | some base_url =>
    match env.vars "STRAPI_TOKEN" with
    | none => ([], Res.panic "STRAPI_TOKEN")
    | some _strapi_token =>
      let url := pageUrl base_url page
      ([Ev.fetchReq page url],
        match env.fetch page with
        | Except.ok root => Res.ok root
        | Except.error e => Res.err e)

/-- The URL of a Shopify DELETE, as built in `delete_shopify_resource`. -/
def shopify_url (config : ShopifyConfig) (resource : String) (res_id : String) : String :=
  config.shop_url ++ "/" ++ resource ++ "/" ++ res_id ++ ".json"

/-- The URL of a Strapi DELETE, as built in `delete_strapi_resource`. -/
def strapi_url (config : StrapiConfig) (resource : String) (res_id : Int) : String :=
  config.base_url ++ "/" ++ resource ++ "/" ++ toString res_id

/-- `delete_shopify_resource`: sends one DELETE and maps the transport
outcome to a boolean (`Ok(_) => true`, `Err(_) => false`). This
definition assumes the access token is valid as an HTTP header value;
the panic path of `config.access_token.parse().unwrap()` in the header
construction is modelled faithfully in
`delete_shopify_resource_with_header_parse` below, which coincides with
this one whenever the token is valid. -/
def delete_shopify_resource (env : Env) (config : ShopifyConfig) (resource : String)
    (res_id : String) : List Ev × Bool :=
  let url := shopify_url config resource res_id
  ([Ev.shopifyReq url],
    match env.shopifyTransport url with
    | Except.ok _ => true
    | Except.error _ => false)

/-- Whether a character may appear in an HTTP header value: the byte
check of `HeaderValue::from_str` in the http crate accepts horizontal
tab and every byte that is at least 32 and not DEL (127); every byte of
a non-ASCII character is at least 128 and always passes, so the
character-level check agrees with the byte-level one. -/
def validHeaderChar (c : Char) : Bool :=
  c == '\t' || (32 ≤ c.toNat && c.toNat ≠ 127)

/-- Whether a string parses as an HTTP header value
(`HeaderValue::from_str`, used by `.parse()` on the header strings). -/
def validHeaderValue (s : String) : Bool := s.data.all validHeaderChar

/-- `delete_shopify_resource` with the header construction modelled in
full: `"application/json".parse().unwrap()` always succeeds (see
`content_type_header_valid`), but `config.access_token.parse().unwrap()`
panics when the configured token is not a valid HTTP header value — and
this happens after the URL is built but before the DELETE is sent, so
the panic leaves an empty event trace. With a valid token the function
returns exactly the result of `delete_shopify_resource`. -/
def delete_shopify_resource_with_header_parse (env : Env) (config : ShopifyConfig)
    (resource : String) (res_id : String) : List Ev × Res Bool :=
  let url := shopify_url config resource res_id
  if validHeaderValue config.access_token then
    ([Ev.shopifyReq url],
      Res.ok
        (match env.shopifyTransport url with
         | Except.ok _ => true
         | Except.error _ => false))
  else
    ([], Res.panic "called Result::unwrap() on an Err value: InvalidHeaderValue")

/-- `delete_strapi_resource`: sends one DELETE and maps the transport
outcome to a boolean (`Ok(_) => true`, `Err(_) => false`). -/
def delete_strapi_resource (env : Env) (config : StrapiConfig) (resource : String)
    (res_id : Int) : List Ev × Bool :=
  let url := strapi_url config resource res_id
  ([Ev.strapiReq url],
    match env.strapiTransport url with
    | Except.ok _ => true
    | Except.error _ => false)

/-- The body of the per-record loop of `process_paged_orders`: if the
record has a `cartReference`, delete the Shopify resource (its boolean
result is discarded, as in the source), then always delete the Strapi
resource (result likewise discarded). Returns the events emitted for this
record. -/
def process_order (env : Env) (shopify_config : ShopifyConfig)
    (strapi_config : StrapiConfig) (d : DataElement) : List Ev :=
  (match d.attributes.cart_reference with
   | some cart => (delete_shopify_resource env shopify_config "orders" cart).1
   | none => [])
    ++ (delete_strapi_resource env strapi_config "order" d.id).1

/-- The `for data in &root.data` loop of `process_paged_orders`, carrying
the running `processed` counter (`processed += 1` per record, regardless
of the delete outcomes). -/
def process_order_loop (env : Env) (shopify_config : ShopifyConfig)
    (strapi_config : StrapiConfig) : List DataElement → Int → List Ev × Int
  | [], processed => ([], processed)
  | d :: rest, processed =>
    let evs := process_order env shopify_config strapi_config d
    let r := process_order_loop env shopify_config strapi_config rest (processed + 1)
    (evs ++ r.1, r.2)

/-- `process_paged_orders`: loads both configurations from the environment
(a missing variable panics here, inside the page task), then processes the
records sequentially and returns `(processed, page)`. -/
def process_paged_orders (env : Env) (root : Root) (page : Int) :
    List Ev × Res (Int × Int) :=
  match load_configs env with
  | Except.error m => ([], Res.panic m)
  | Except.ok (shopify_config, strapi_config) =>
    let r := process_order_loop env shopify_config strapi_config root.data 0
    (r.1, Res.ok (r.2, page))

/-- The body of one spawned page task in `process_root_orders`: fetch the
page, on success process it, on a fetch `Err` print the error and yield
`(0, page)`. A panic escapes the task (tokio turns it into a `JoinError`
at join time). -/
def page_task (env : Env) (page : Int) : List Ev × Res (Int × Int) :=
  let fr := fetch_root_for_page env page
  match fr.2 with
  | Res.ok next =>
    let pr := process_paged_orders env next page
    (fr.1 ++ pr.1, pr.2)
  | Res.err _e => (fr.1, Res.ok (0, page))
  | Res.panic m => (fr.1, Res.panic m)

/-- The inclusive range `lo..=hi` of `i32` values, as iterated by the
spawning loop (empty when `hi < lo`). -/
def rangeIncl (lo hi : Int) : List Int :=
  (List.range (hi - lo + 1).toNat).map (fun (i : Nat) => lo + (i : Int))

/-- The aggregation loop of `process_root_orders`: fold the joined task
results into `processed_orders`, adding the count of each `Ok` result and
only printing on a `JoinError` (a panicked task). -/
def fold_results (results : List (Res (Int × Int))) : Int :=
  results.foldl
    (fun processed_orders r =>
      match r with
      | Res.ok v => processed_orders + v.1
      | _ => processed_orders)
    0

/-- `process_root_orders`: reads `page_count` from the pagination metadata
of the already-fetched page-1 envelope, spawns one task per page in
`1..=page_count`, joins them all, and folds the results. Returns the
concatenated event trace (tasks listed in page order; interleaving does
not affect any verified property, see the permutation lemma on
`fold_results`) and the final `processed_orders` count. -/
def process_root_orders (env : Env) (root : Root) : List Ev × Int :=
  let total_pages := root.meta.pagination.page_count
  let tasks := (rangeIncl 1 total_pages).map (fun page => page_task env page)
  ((tasks.map (fun t => t.1)).flatten,
    fold_results (tasks.map (fun t => t.2)))

/-- `delete_orders`: the orders-mode entry point. Fetches page 1 (the
discovery fetch); on success hands the envelope to `process_root_orders`,
on `Err` prints the error and stops. -/
def delete_orders (env : Env) : List Ev × Res Int :=
  let fr := fetch_root_for_page env 1
  match fr.2 with
  | Res.ok root =>
    let pr := process_root_orders env root
    (fr.1 ++ pr.1, Res.ok pr.2)
  | Res.err e => (fr.1, Res.err e)
  | Res.panic m => (fr.1, Res.panic m)

/-- The number of listing GETs in an event trace. -/
def countFetchEvents (evs : List Ev) : Nat :=
  (evs.filter (fun e => match e with | Ev.fetchReq _ _ => true | _ => false)).length

/-- The page numbers of the listing GETs in an event trace, in order. -/
def fetchPages (evs : List Ev) : List Int :=
  evs.filterMap (fun e => match e with | Ev.fetchReq p _ => some p | _ => none)

/-- What one page contributes to the final processed count: the number of
its records when its fetch succeeded, 0 when it failed. -/
def pageContribution (env : Env) (page : Int) : Int :=
  match env.fetch page with
  | Except.ok root => (root.data.length : Int)
  | Except.error _ => 0

/-- The contribution of one task result to the aggregation fold. -/
def resContrib : Res (Int × Int) → Int
  | Res.ok v => v.1
  | _ => 0

/-! ### Supporting lemmas -/

lemma load_configs_vars {env : Env} {sc : ShopifyConfig} {tc : StrapiConfig}
    (h : load_configs env = Except.ok (sc, tc)) :
    env.vars "STRAPI_BASE_URL" = some tc.base_url ∧
      env.vars "STRAPI_TOKEN" = some tc.auth_token := by
  unfold load_configs at h
  cases h1 : env.vars "STRAPI_BASE_URL" with
  | none => rw [h1] at h; exact absurd h (by simp)
  | some bu =>
    rw [h1] at h
    cases h2 : env.vars "STRAPI_TOKEN" with
    | none => rw [h2] at h; exact absurd h (by simp)
    | some tk =>
      rw [h2] at h
      cases h3 : env.vars "SHOP_ACCESS_TOKEN" with
      | none => rw [h3] at h; exact absurd h (by simp)
      | some sa =>
        rw [h3] at h
        cases h4 : env.vars "SHOP_BASE_URL" with
        | none => rw [h4] at h; exact absurd h (by simp)
        | some su =>
          rw [h4] at h
          simp only [Except.ok.injEq, Prod.mk.injEq] at h
          obtain ⟨-, htc⟩ := h
          subst htc
          exact ⟨rfl, rfl⟩

lemma fetch_spec {env : Env} {bu tk : String} (p : Int)
    (hb : env.vars "STRAPI_BASE_URL" = some bu)
    (ht : env.vars "STRAPI_TOKEN" = some tk) :
    fetch_root_for_page env p
      = ([Ev.fetchReq p (pageUrl bu p)],
          match env.fetch p with
          | Except.ok root => Res.ok root
          | Except.error e => Res.err e) := by
  unfold fetch_root_for_page
  rw [hb, ht]

lemma process_order_eq (env : Env) (sc : ShopifyConfig) (tc : StrapiConfig)
    (d : DataElement) :
    process_order env sc tc d
      = (match d.attributes.cart_reference with
         | some cart => [Ev.shopifyReq (shopify_url sc "orders" cart)]
         | none => []) ++ [Ev.strapiReq (strapi_url tc "order" d.id)] := by
  unfold process_order delete_shopify_resource delete_strapi_resource
  cases d.attributes.cart_reference <;> rfl

lemma process_order_loop_spec (env : Env) (sc : ShopifyConfig) (tc : StrapiConfig)
    (ds : List DataElement) : ∀ n : Int,
    process_order_loop env sc tc ds n
      = ((ds.map (process_order env sc tc)).flatten, n + (ds.length : Int)) := by
  induction ds with
  | nil => intro n; simp [process_order_loop]
  | cons d rest ih =>
    intro n
    simp only [process_order_loop, ih (n + 1), List.map_cons, List.flatten_cons,
      List.length_cons, Prod.mk.injEq]
    refine ⟨trivial, ?_⟩
    push_cast
    ring

lemma process_paged_orders_spec {env : Env} {sc : ShopifyConfig} {tc : StrapiConfig}
    (h : load_configs env = Except.ok (sc, tc)) (root : Root) (page : Int) :
    process_paged_orders env root page
      = ((root.data.map (process_order env sc tc)).flatten,
          Res.ok ((root.data.length : Int), page)) := by
  unfold process_paged_orders
  rw [h]
  simp [process_order_loop_spec]

lemma page_task_ok {env : Env} {sc : ShopifyConfig} {tc : StrapiConfig}
    (h : load_configs env = Except.ok (sc, tc))
    {p : Int} {r : Root} (hf : env.fetch p = Except.ok r) :
    page_task env p
      = (Ev.fetchReq p (pageUrl tc.base_url p)
            :: (r.data.map (process_order env sc tc)).flatten,
          Res.ok ((r.data.length : Int), p)) := by
  obtain ⟨hb, ht⟩ := load_configs_vars h
  unfold page_task
  rw [fetch_spec p hb ht, hf]
  simp [process_paged_orders_spec h]

lemma page_task_err {env : Env} {bu tk : String}
    (hb : env.vars "STRAPI_BASE_URL" = some bu)
    (ht : env.vars "STRAPI_TOKEN" = some tk)
    {p : Int} {e : String} (hf : env.fetch p = Except.error e) :
    page_task env p = ([Ev.fetchReq p (pageUrl bu p)], Res.ok (0, p)) := by
  unfold page_task
  rw [fetch_spec p hb ht, hf]

lemma page_task_panic {env : Env} {bu tk m : String}
    (hb : env.vars "STRAPI_BASE_URL" = some bu)
    (ht : env.vars "STRAPI_TOKEN" = some tk)
    (hload : load_configs env = Except.error m)
    {p : Int} {r : Root} (hf : env.fetch p = Except.ok r) :
    page_task env p = ([Ev.fetchReq p (pageUrl bu p)], Res.panic m) := by
  unfold page_task
  rw [fetch_spec p hb ht, hf]
  unfold process_paged_orders
  rw [hload]
  simp

lemma countFetchEvents_append (l₁ l₂ : List Ev) :
    countFetchEvents (l₁ ++ l₂) = countFetchEvents l₁ + countFetchEvents l₂ := by
  simp [countFetchEvents, List.filter_append]

lemma fetchPages_append (l₁ l₂ : List Ev) :
    fetchPages (l₁ ++ l₂) = fetchPages l₁ ++ fetchPages l₂ := by
  simp [fetchPages]

lemma fetchPages_flatten (ls : List (List Ev)) :
    fetchPages ls.flatten = (ls.map fetchPages).flatten := by
  induction ls with
  | nil => rfl
  | cons l rest ih => simp [fetchPages_append, ih]

lemma process_order_fetchPages (env : Env) (sc : ShopifyConfig) (tc : StrapiConfig)
    (d : DataElement) : fetchPages (process_order env sc tc d) = [] := by
  rw [process_order_eq]
  cases d.attributes.cart_reference <;> simp [fetchPages]

lemma records_trace_fetchPages (env : Env) (sc : ShopifyConfig) (tc : StrapiConfig)
    (ds : List DataElement) :
    fetchPages ((ds.map (process_order env sc tc)).flatten) = [] := by
  rw [fetchPages_flatten]
  induction ds with
  | nil => rfl
  | cons d rest ih => simp [process_order_fetchPages, ih]

lemma countFetchEvents_eq_length_fetchPages (evs : List Ev) :
    countFetchEvents evs = (fetchPages evs).length := by
  induction evs with
  | nil => rfl
  | cons e rest ih =>
    cases e <;> simp [countFetchEvents, fetchPages, List.filter_cons] at ih ⊢
    all_goals omega

lemma page_task_fetchPages {env : Env} {sc : ShopifyConfig} {tc : StrapiConfig}
    (h : load_configs env = Except.ok (sc, tc)) (p : Int) :
    fetchPages (page_task env p).1 = [p] := by
  obtain ⟨hb, ht⟩ := load_configs_vars h
  cases hf : env.fetch p with
  | ok r =>
    rw [page_task_ok h hf]
    have := records_trace_fetchPages env sc tc r.data
    simp [fetchPages, List.filterMap_cons] at this ⊢
    exact this
  | error e =>
    rw [page_task_err hb ht hf]
    rfl

lemma process_root_orders_trace (env : Env) (root : Root) :
    (process_root_orders env root).1
      = ((rangeIncl 1 root.meta.pagination.page_count).map
          (fun p => (page_task env p).1)).flatten := by
  simp [process_root_orders, List.map_map]
  rfl

lemma process_root_orders_snd (env : Env) (root : Root) :
    (process_root_orders env root).2
      = fold_results ((rangeIncl 1 root.meta.pagination.page_count).map
          (fun p => (page_task env p).2)) := by
  simp [process_root_orders, List.map_map]
  rfl

lemma fold_results_eq_sum (rs : List (Res (Int × Int))) :
    fold_results rs = (rs.map resContrib).sum := by
  have key : ∀ (rs : List (Res (Int × Int))) (a : Int),
      rs.foldl
        (fun processed_orders r =>
          match r with
          | Res.ok v => processed_orders + v.1
          | _ => processed_orders) a
        = a + (rs.map resContrib).sum := by
    intro rs
    induction rs with
    | nil => intro a; simp
    | cons r rest ih =>
      intro a
      cases r <;> simp [List.foldl_cons, ih, resContrib]
      all_goals ring
  simpa [fold_results] using key rs 0

lemma rangeIncl_length (lo hi : Int) :
    (rangeIncl lo hi).length = (hi - lo + 1).toNat := by
  unfold rangeIncl
  rw [List.length_map, List.length_range]

lemma rangeIncl_nodup (lo hi : Int) : (rangeIncl lo hi).Nodup := by
  unfold rangeIncl
  refine List.Nodup.map ?_ (List.nodup_range _)
  intro a b hab
  have hab2 : lo + (a : Int) = lo + (b : Int) := hab
  have h2 : (a : Int) = b := by omega
  exact_mod_cast h2

lemma flatten_map_singleton {α : Type} (l : List α) :
    (l.map (fun x => [x])).flatten = l := by
  induction l with
  | nil => rfl
  | cons x rest ih => simp [ih]

lemma process_root_orders_fetchPages {env : Env} {sc : ShopifyConfig}
    {tc : StrapiConfig} (h : load_configs env = Except.ok (sc, tc)) (root : Root) :
    fetchPages (process_root_orders env root).1
      = rangeIncl 1 root.meta.pagination.page_count := by
  rw [process_root_orders_trace, fetchPages_flatten, List.map_map]
  have hfun : (fetchPages ∘ fun p => (page_task env p).1) = fun p => [p] :=
    funext fun p => page_task_fetchPages h p
  rw [hfun, flatten_map_singleton]

lemma delete_orders_trace {env : Env} {sc : ShopifyConfig} {tc : StrapiConfig}
    (h : load_configs env = Except.ok (sc, tc)) {root : Root}
    (hf1 : env.fetch 1 = Except.ok root) :
    (delete_orders env).1
      = Ev.fetchReq 1 (pageUrl tc.base_url 1) :: (process_root_orders env root).1 := by
  obtain ⟨hb, ht⟩ := load_configs_vars h
  unfold delete_orders
  rw [fetch_spec 1 hb ht, hf1]
  rfl

/-! ### Concrete test fixtures for the witnesses -/

/-- An environment holding all four required variables. -/
def testVars : String → Option String := fun s =>
  if s = "STRAPI_BASE_URL" then some "http://strapi.local" else
  if s = "STRAPI_TOKEN" then some "strapi-token" else
  if s = "SHOP_ACCESS_TOKEN" then some "shop-token" else
  if s = "SHOP_BASE_URL" then some "http://shop.local" else none

def testShopifyConfig : ShopifyConfig := ⟨"shop-token", "http://shop.local"⟩

def testStrapiConfig : StrapiConfig := ⟨"http://strapi.local", "strapi-token"⟩

/-- Page 1 of a two-page listing: one record with a cart reference, one
without; `total = 12`, `pageSize = 10`, `pageCount = 2`. -/
def testRoot1 : Root :=
  ⟨[⟨42, ⟨some "cart_9"⟩⟩, ⟨7, ⟨none⟩⟩], ⟨⟨1, 10, 2, 12⟩⟩⟩

/-- Page 2 of the two-page listing. -/
def testRoot2 : Root := ⟨[⟨5, ⟨none⟩⟩], ⟨⟨2, 10, 2, 12⟩⟩⟩

/-- A fully healthy environment: both pages fetch successfully and all
DELETE transports complete. -/
def testEnv : Env :=
  ⟨testVars,
    fun p =>
      if p = 1 then Except.ok testRoot1
      else if p = 2 then Except.ok testRoot2
      else Except.error "404",
    fun _ => Except.ok (),
    fun _ => Except.ok ()⟩

/-- Page 1 of a three-page listing (`total = 25`, `pageCount = 3`). -/
def testRootA : Root :=
  ⟨[⟨1, ⟨none⟩⟩, ⟨2, ⟨some "cart_2"⟩⟩], ⟨⟨1, 10, 3, 25⟩⟩⟩

/-- Page 3 of the three-page listing. -/
def testRootC : Root := ⟨[⟨3, ⟨none⟩⟩], ⟨⟨3, 10, 3, 25⟩⟩⟩

/-- An environment where the fetch of page 2 fails at the transport level
while pages 1 and 3 succeed. -/
def testEnvFail : Env :=
  ⟨testVars,
    fun p =>
      if p = 1 then Except.ok testRootA
      else if p = 3 then Except.ok testRootC
      else Except.error "transport error",
    fun _ => Except.ok (),
    fun _ => Except.ok ()⟩

/-- An environment where every listing fetch fails. -/
def testEnvFetchFail : Env :=
  ⟨testVars, fun _ => Except.error "connection refused",
    fun _ => Except.ok (), fun _ => Except.ok ()⟩

/-- An environment with `STRAPI_TOKEN` missing. -/
def testEnvNoToken : Env :=
  ⟨fun s => if s = "STRAPI_BASE_URL" then some "http://strapi.local" else none,
    fun _ => Except.ok testRoot1,
    fun _ => Except.ok (), fun _ => Except.ok ()⟩

/-- A page none of whose records carries a cart reference. -/
def testRootNoCart : Root := ⟨[⟨8, ⟨none⟩⟩, ⟨9, ⟨none⟩⟩], ⟨⟨1, 10, 1, 2⟩⟩⟩

/-- An environment with both Strapi variables set but `SHOP_ACCESS_TOKEN`
missing; the listing fetch itself succeeds, with a page that has no cart
references at all. -/
def testEnvNoShop : Env :=
  ⟨fun s =>
      if s = "STRAPI_BASE_URL" then some "http://strapi.local" else
      if s = "STRAPI_TOKEN" then some "strapi-token" else none,
    fun _ => Except.ok testRootNoCart,
    fun _ => Except.ok (), fun _ => Except.ok ()⟩

/-! ### The claims -/

/-- C1: for every record of a fetched page, `process_paged_orders` sends a
Shopify DELETE (the secondary delete) exactly when the record's
`cartReference` is present, and always sends the Strapi DELETE (the
primary delete); for a record with a `cartReference` the Shopify DELETE
comes first. The trace formula does not mention the two transport
functions at all, so the primary delete is sent even when the secondary
delete returns `false`. -/
theorem process_paged_orders_secondary_primary (env : Env) (sc : ShopifyConfig)
    (tc : StrapiConfig) (h : load_configs env = Except.ok (sc, tc))
    (root : Root) (page : Int) :
    (process_paged_orders env root page).1
      = (root.data.map (fun d =>
          (match d.attributes.cart_reference with
           | some cart => [Ev.shopifyReq (shopify_url sc "orders" cart)]
           | none => []) ++ [Ev.strapiReq (strapi_url tc "order" d.id)])).flatten := by
  have hfun : process_order env sc tc = fun d =>
      (match d.attributes.cart_reference with
       | some cart => [Ev.shopifyReq (shopify_url sc "orders" cart)]
       | none => []) ++ [Ev.strapiReq (strapi_url tc "order" d.id)] :=
    funext fun d => process_order_eq env sc tc d
  rw [process_paged_orders_spec h, hfun]

/-- Witness for C1 at a concrete page holding one record with a cart
reference and one without. -/
theorem process_paged_orders_secondary_primary_witness :
    load_configs testEnv = Except.ok (testShopifyConfig, testStrapiConfig) ∧
    (process_paged_orders testEnv testRoot1 1).1
      = (testRoot1.data.map (fun d =>
          (match d.attributes.cart_reference with
           | some cart => [Ev.shopifyReq (shopify_url testShopifyConfig "orders" cart)]
           | none => []) ++
            [Ev.strapiReq (strapi_url testStrapiConfig "order" d.id)])).flatten :=
  ⟨rfl, process_paged_orders_secondary_primary testEnv testShopifyConfig
    testStrapiConfig rfl testRoot1 1⟩

/-- C2: the final processed count of `process_root_orders` equals the sum,
over the spawned page range, of each page's contribution — the number of
records of the page when its fetch succeeded and 0 when it failed; a
failed fetch inside one page task yields `(0, page)` instead of aborting
(the remaining pages still appear in the same sum). -/
theorem processed_count_totals (env : Env) (sc : ShopifyConfig)
    (tc : StrapiConfig) (h : load_configs env = Except.ok (sc, tc)) (root : Root) :
    ((process_root_orders env root).2
        = ((rangeIncl 1 root.meta.pagination.page_count).map
            (pageContribution env)).sum)
    ∧ (∀ p e, env.fetch p = Except.error e → (page_task env p).2 = Res.ok (0, p))
    ∧ (∀ p e, env.fetch p = Except.error e → pageContribution env p = 0) := by
  obtain ⟨hb, ht⟩ := load_configs_vars h
  refine ⟨?_, ?_, ?_⟩
  · rw [process_root_orders_snd, fold_results_eq_sum, List.map_map]
    have hfun : (resContrib ∘ fun p => (page_task env p).2) = pageContribution env := by
      funext p
      cases hf : env.fetch p with
      | ok r => simp [Function.comp, page_task_ok h hf, resContrib, pageContribution, hf]
      | error e => simp [Function.comp, page_task_err hb ht hf, resContrib, pageContribution, hf]
    rw [hfun]
  · intro p e hf
    rw [page_task_err hb ht hf]
  · intro p e hf
    simp [pageContribution, hf]

/-- Witness for C2: a three-page run in which the fetch of page 2 fails;
the final count is the sum of the page contributions (10-record page 1
modelled with 2 records, page 2 contributing 0, page 3 with 1 record). -/
theorem processed_count_totals_witness :
    load_configs testEnvFail = Except.ok (testShopifyConfig, testStrapiConfig) ∧
    (process_root_orders testEnvFail testRootA).2
      = ((rangeIncl 1 3).map (pageContribution testEnvFail)).sum :=
  ⟨rfl, (processed_count_totals testEnvFail testShopifyConfig testStrapiConfig
    rfl testRootA).1⟩

/-- C3: the orchestrator issues exactly one listing fetch per page number
in `[1, pageCount]` (in that order, each page task performing exactly one
fetch), so when `pageCount = ceil(total / pageSize)` it issues exactly
`ceil(total / pageSize)` page-fetch operations besides the discovery
fetch. -/
theorem page_fetch_operations_count (env : Env) (sc : ShopifyConfig)
    (tc : StrapiConfig) (h : load_configs env = Except.ok (sc, tc)) (root : Root)
    (hS : 0 < root.meta.pagination.page_size)
    (hT : 0 ≤ root.meta.pagination.total)
    (hceil : root.meta.pagination.page_count
        = (root.meta.pagination.total + root.meta.pagination.page_size - 1)
            / root.meta.pagination.page_size) :
    fetchPages (process_root_orders env root).1
        = rangeIncl 1 root.meta.pagination.page_count
    ∧ (countFetchEvents (process_root_orders env root).1 : Int)
        = (root.meta.pagination.total + root.meta.pagination.page_size - 1)
            / root.meta.pagination.page_size
    ∧ ∀ p, countFetchEvents (page_task env p).1 = 1 := by
  have hpc : 0 ≤ root.meta.pagination.page_count := by
    rw [hceil]
    apply Int.ediv_nonneg <;> omega
  refine ⟨process_root_orders_fetchPages h root, ?_, ?_⟩
  · rw [countFetchEvents_eq_length_fetchPages, process_root_orders_fetchPages h root,
      rangeIncl_length, ← hceil]
    omega
  · intro p
    rw [countFetchEvents_eq_length_fetchPages, page_task_fetchPages h p]
    rfl

/-- Witness for C3 on a listing with `total = 12`, `pageSize = 10`,
`pageCount = 2 = ceil(12/10)`. -/
theorem page_fetch_operations_count_witness :
    (0 : Int) < 10 ∧
    fetchPages (process_root_orders testEnv testRoot1).1 = rangeIncl 1 2 ∧
    (countFetchEvents (process_root_orders testEnv testRoot1).1 : Int)
      = (12 + 10 - 1) / 10 := by
  refine ⟨by decide, ?_, ?_⟩
  · exact (page_fetch_operations_count testEnv testShopifyConfig testStrapiConfig
      rfl testRoot1 (by decide) (by decide) (by decide)).1
  · exact (page_fetch_operations_count testEnv testShopifyConfig testStrapiConfig
      rfl testRoot1 (by decide) (by decide) (by decide)).2.1

/-- C4: `process_paged_orders` returns exactly `(records.length, page)`
for a fetched page: the counter counts every record of the envelope once,
and the result does not depend on the boolean outcomes of the delete
calls (no transport function occurs in it). -/
theorem process_paged_orders_result (env : Env) (sc : ShopifyConfig)
    (tc : StrapiConfig) (h : load_configs env = Except.ok (sc, tc))
    (root : Root) (page : Int) :
    (process_paged_orders env root page).2
      = Res.ok ((root.data.length : Int), page) := by
  rw [process_paged_orders_spec h]

/-- Witness for C4 at a concrete two-record page. -/
theorem process_paged_orders_result_witness :
    load_configs testEnv = Except.ok (testShopifyConfig, testStrapiConfig) ∧
    (process_paged_orders testEnv testRoot1 1).2 = Res.ok (2, 1) :=
  ⟨rfl, process_paged_orders_result testEnv testShopifyConfig testStrapiConfig
    rfl testRoot1 1⟩

/-- The Content-Type header literal of `delete_shopify_resource` always
parses, so its `unwrap` never panics. -/
lemma content_type_header_valid : validHeaderValue "application/json" = true := by
  decide

/-- C5 counterexample: with a Shopify access token containing a newline —
a string the environment can perfectly well hold — the secondary delete
panics while building its headers, before any DELETE is sent: it throws
instead of returning a boolean, refuting that neither delete function
ever throws. -/
theorem delete_shopify_panics_on_invalid_token :
    delete_shopify_resource_with_header_parse testEnv
        ⟨"bad\ntoken", "http://shop.local"⟩ "orders" "cart_9"
      = ([], Res.panic "called Result::unwrap() on an Err value: InvalidHeaderValue") := by
  decide

/-- C5 (amended): each deletion function returns `true` exactly when the
DELETE completed at the transport level (whatever the HTTP status) and
`false` exactly on a transport-level failure; the primary delete never
throws, and the secondary delete never throws provided the configured
access token is a valid HTTP header value — under that proviso it
returns precisely the boolean of the transport outcome (first conjunct),
so a delete against an absent id still yields a boolean. -/
theorem delete_resource_transport_boolean_amended (env : Env) (scfg : ShopifyConfig)
    (tcfg : StrapiConfig) (resource : String) (sid : String) (rid : Int)
    (hv : validHeaderValue scfg.access_token = true) :
    ((delete_shopify_resource_with_header_parse env scfg resource sid).2
        = Res.ok (delete_shopify_resource env scfg resource sid).2)
    ∧ ((delete_shopify_resource_with_header_parse env scfg resource sid).2 = Res.ok true
        ↔ ∃ u, env.shopifyTransport (shopify_url scfg resource sid) = Except.ok u)
    ∧ ((delete_shopify_resource_with_header_parse env scfg resource sid).2 = Res.ok false
        ↔ ∃ e, env.shopifyTransport (shopify_url scfg resource sid) = Except.error e)
    ∧ ((delete_strapi_resource env tcfg resource rid).2 = true
        ↔ ∃ u, env.strapiTransport (strapi_url tcfg resource rid) = Except.ok u)
    ∧ ((delete_strapi_resource env tcfg resource rid).2 = false
        ↔ ∃ e, env.strapiTransport (strapi_url tcfg resource rid) = Except.error e) := by
  cases hs : env.shopifyTransport (shopify_url scfg resource sid) <;>
    cases ht2 : env.strapiTransport (strapi_url tcfg resource rid) <;>
      simp [delete_shopify_resource_with_header_parse, delete_shopify_resource,
        delete_strapi_resource, hv, hs, ht2]

/-- Witness for the amended C5 at the valid test token. -/
theorem delete_resource_transport_boolean_amended_witness :
    validHeaderValue testShopifyConfig.access_token = true ∧
    (delete_shopify_resource_with_header_parse testEnv testShopifyConfig
        "orders" "cart_9").2
      = Res.ok (delete_shopify_resource testEnv testShopifyConfig
          "orders" "cart_9").2 :=
  ⟨by decide, (delete_resource_transport_boolean_amended testEnv testShopifyConfig
    testStrapiConfig "orders" "cart_9" 42 (by decide)).1⟩

/-- C6: the discovery step of `delete_orders` fetches page 1 at the URL
built with the fixed page size 10 (`pageUrl` expands to
`create_order_filter page 10`); when that fetch fails (transport or
deserialization error) the run reports the error and stops — its whole
trace is that single listing GET, so no page task runs and no DELETE is
sent. -/
theorem discovery_failure_aborts_run (env : Env) (bu tk : String)
    (hb : env.vars "STRAPI_BASE_URL" = some bu)
    (ht : env.vars "STRAPI_TOKEN" = some tk)
    (e : String) (hf : env.fetch 1 = Except.error e) :
    delete_orders env = ([Ev.fetchReq 1 (pageUrl bu 1)], Res.err e) := by
  unfold delete_orders
  rw [fetch_spec 1 hb ht, hf]

/-- Witness for C6 in an environment where every fetch fails. -/
theorem discovery_failure_aborts_run_witness :
    testEnvFetchFail.fetch 1 = Except.error "connection refused" ∧
    delete_orders testEnvFetchFail
      = ([Ev.fetchReq 1 (pageUrl "http://strapi.local" 1)],
          Res.err "connection refused") :=
  ⟨rfl, discovery_failure_aborts_run testEnvFetchFail "http://strapi.local"
    "strapi-token" rfl rfl "connection refused" rfl⟩

/-- C7: with `STRAPI_TOKEN` absent from the environment, an orders-mode
run panics while building the first listing request, before anything is
sent: its event trace is empty and its outcome is a panic. -/
theorem missing_strapi_token_fails_before_network (env : Env)
    (ht : env.vars "STRAPI_TOKEN" = none) :
    (delete_orders env).1 = [] ∧ ∃ m, (delete_orders env).2 = Res.panic m := by
  unfold delete_orders fetch_root_for_page
  cases hb : env.vars "STRAPI_BASE_URL" with
  | none =>
    exact ⟨rfl, "STRAPI_BASE_URL", rfl⟩
  | some bu =>
    rw [ht]
    exact ⟨rfl, "STRAPI_TOKEN", rfl⟩

/-- Witness for C7 in an environment missing `STRAPI_TOKEN`. -/
theorem missing_strapi_token_fails_before_network_witness :
    testEnvNoToken.vars "STRAPI_TOKEN" = none ∧
    (delete_orders testEnvNoToken).1 = [] ∧
    ∃ m, (delete_orders testEnvNoToken).2 = Res.panic m :=
  ⟨rfl, missing_strapi_token_fails_before_network testEnvNoToken rfl⟩

/-- C8: the aggregation fold of `process_root_orders` is invariant under
permutation of the task results, so the final processed total does not
depend on the order in which the page tasks complete and report. -/
theorem fold_results_perm_invariant (rs₁ rs₂ : List (Res (Int × Int)))
    (h : rs₁.Perm rs₂) : fold_results rs₁ = fold_results rs₂ := by
  rw [fold_results_eq_sum, fold_results_eq_sum]
  exact List.Perm.sum_eq (List.Perm.map resContrib h)

/-- Witness for C8 on two orderings of the same three task results. -/
theorem fold_results_perm_invariant_witness :
    ([Res.ok ((10 : Int), (1 : Int)), Res.panic "boom", Res.ok (5, 3)]).Perm
        [Res.ok (5, 3), Res.panic "boom", Res.ok (10, 1)] ∧
    fold_results [Res.ok (10, 1), Res.panic "boom", Res.ok (5, 3)]
      = fold_results [Res.ok (5, 3), Res.panic "boom", Res.ok (10, 1)] :=
  ⟨by decide, fold_results_perm_invariant _ _ (by decide)⟩

/-- C9: a page task whose listing fetch succeeded calls `load_configs`
unconditionally — whatever the records of the fetched page, cross
references or not — so when a Shopify variable is missing (here:
`load_configs` fails although both Strapi variables are present) the task
panics only after having issued its listing GET, never before a network
call. -/
theorem shop_config_loaded_in_page_task (env : Env) (bu tk m : String)
    (hb : env.vars "STRAPI_BASE_URL" = some bu)
    (ht : env.vars "STRAPI_TOKEN" = some tk)
    (hload : load_configs env = Except.error m)
    (p : Int) (r : Root) (hf : env.fetch p = Except.ok r) :
    (page_task env p).1 = [Ev.fetchReq p (pageUrl bu p)]
    ∧ (page_task env p).2 = Res.panic m := by
  rw [page_task_panic hb ht hload hf]
  exact ⟨rfl, rfl⟩

/-- Witness for C9: `SHOP_ACCESS_TOKEN` missing, the fetched page having
no cross references at all; the task still panics, after its fetch. -/
theorem shop_config_loaded_in_page_task_witness :
    load_configs testEnvNoShop = Except.error "SHOP_ACCESS_TOKEN not set" ∧
    (page_task testEnvNoShop 1).1
        = [Ev.fetchReq 1 (pageUrl "http://strapi.local" 1)] ∧
    (page_task testEnvNoShop 1).2 = Res.panic "SHOP_ACCESS_TOKEN not set" :=
  ⟨rfl, shop_config_loaded_in_page_task testEnvNoShop "http://strapi.local"
    "strapi-token" "SHOP_ACCESS_TOKEN not set" rfl rfl rfl 1 testRootNoCart rfl⟩

/-- C10: the records of the discovery response are never processed
directly — `process_root_orders` reads only the pagination metadata
(any envelope with the same `pageCount` produces the same run) — and
every page in `[1, pageCount]`, page 1 included, is fetched again by its
own task, each page exactly once; a run whose discovery fetch succeeded
issues `pageCount + 1` listing GETs, and each successfully fetched page's
records are processed exactly once, by the one task of that page. -/
theorem discovery_page_refetched (env : Env) (sc : ShopifyConfig)
    (tc : StrapiConfig) (h : load_configs env = Except.ok (sc, tc)) (root : Root)
    (hf1 : env.fetch 1 = Except.ok root)
    (hpc : 0 ≤ root.meta.pagination.page_count) :
    (∀ root2 : Root,
        root2.meta.pagination.page_count = root.meta.pagination.page_count →
        process_root_orders env root2 = process_root_orders env root)
    ∧ fetchPages (delete_orders env).1
        = 1 :: rangeIncl 1 root.meta.pagination.page_count
    ∧ (rangeIncl 1 root.meta.pagination.page_count).Nodup
    ∧ countFetchEvents (delete_orders env).1
        = root.meta.pagination.page_count.toNat + 1
    ∧ ∀ p rp, env.fetch p = Except.ok rp →
        (page_task env p).1
          = Ev.fetchReq p (pageUrl tc.base_url p)
              :: (rp.data.map (process_order env sc tc)).flatten := by
  have htrace := delete_orders_trace h hf1
  have hcons : fetchPages
      (Ev.fetchReq 1 (pageUrl tc.base_url 1) :: (process_root_orders env root).1)
        = 1 :: fetchPages (process_root_orders env root).1 := rfl
  refine ⟨?_, ?_, rangeIncl_nodup 1 _, ?_, ?_⟩
  · intro root2 h2
    simp only [process_root_orders, h2]
  · rw [htrace, hcons, process_root_orders_fetchPages h root]
  · rw [countFetchEvents_eq_length_fetchPages, htrace, hcons,
      process_root_orders_fetchPages h root]
    simp only [List.length_cons, rangeIncl_length]
    omega
  · intro p rp hfp
    rw [page_task_ok h hfp]

/-- Witness for C10 on the healthy two-page environment: 3 listing GETs
in total, for pages 1, 1 and 2. -/
theorem discovery_page_refetched_witness :
    load_configs testEnv = Except.ok (testShopifyConfig, testStrapiConfig) ∧
    fetchPages (delete_orders testEnv).1 = 1 :: rangeIncl 1 2 ∧
    countFetchEvents (delete_orders testEnv).1 = 3 := by
  refine ⟨rfl, ?_, ?_⟩
  · exact (discovery_page_refetched testEnv testShopifyConfig testStrapiConfig
      rfl testRoot1 rfl (by decide)).2.1
  · exact (discovery_page_refetched testEnv testShopifyConfig testStrapiConfig
      rfl testRoot1 rfl (by decide)).2.2.2.1

end StrapiOrders
